import Mathlib

/-!
Verification of the peptide_db_django repository against its specification.

The development shallowly embeds the Python/Django code of the repository:
pure functions become Lean functions, database tables become lists of row
structures threaded through the operations, and calls to external services
(NCBI Entrez, UniProt, CrossRef, the database driver) become explicit input
parameters describing the outcome of the call.  Python strings are modelled
by Lean strings, with slicing modelled on the underlying character lists.
-/

namespace PeptideDB

/-- Truthiness of an optional Python string: None and the empty string are
falsy, every other string is truthy. -/
def pyTruthy : Option String → Bool
  | none => false
  | some s => s ≠ ""

/-- Python expression `a or b` for optional strings: returns the first
operand when it is truthy, otherwise the second operand. -/
def pyOrStr (a : Option String) (b : String) : String :=
  match a with
  | some s => if s ≠ "" then s else b
  | none => b

/- ------------------------------------------------------------------ -/
/- catalog/models.py, PeptideSequence.get_seq_preview                  -/
/- ------------------------------------------------------------------ -/

/-- Python slice `s[-half:]` for a natural number `half`: for `half = 0`
Python returns the whole string (since `s[-0:] = s[0:]`), otherwise the last
`half` characters. -/
def pyTakeLast (s : List Char) (half : Nat) : List Char :=
  if half = 0 then s else s.drop (s.length - half)

/-- Embedding of `PeptideSequence.get_seq_preview` from catalog/models.py:
if the sequence is at most `max_length` characters it is returned unchanged,
otherwise the first and last `(max_length - 3) / 2` characters are joined by
an ellipsis, where the last-part slice follows Python `s[-half:]` semantics.
The threshold is modelled as a natural number (the code is called with the
default 30 only). -/
def get_seq_preview (aa_seq : List Char) (max_length : Nat) : List Char :=
  if aa_seq.length ≤ max_length then aa_seq
  else
    let half := (max_length - 3) / 2
    aa_seq.take half ++ "...".data ++ pyTakeLast aa_seq half

/- ------------------------------------------------------------------ -/
/- catalog/views.py, valid_taxonomy and OrganismListView.get_queryset  -/
/- ------------------------------------------------------------------ -/

/-- Row of the Organism table (catalog/models.py): scientific name is the
primary key; the taxonomy fields and names are nullable. -/
structure Organism where
  scientific_name : String
  common_name : Option String
  kingdom : Option String
  phylum : Option String
  class_name : Option String
  ncbi_url : Option String
deriving DecidableEq

/-- The three taxonomy columns used by the hierarchical filter. -/
inductive TaxField
  | kingdom
  | phylum
  | class_name
deriving DecidableEq

/-- Value of a taxonomy column of an Organism row. -/
def Organism.field (o : Organism) : TaxField → Option String
  | TaxField.kingdom => o.kingdom
  | TaxField.phylum => o.phylum
  | TaxField.class_name => o.class_name

/-- Values of the column `sub` over the Organism rows whose column `sup`
equals `v`; this is the list the view compares a candidate child filter
against (`Organism.objects.values(sub).filter(sup=v)`). -/
def taxonomy_values (db : List Organism) (sub : TaxField) (sup : TaxField)
    (v : Option String) : List (Option String) :=
  (db.filter (fun o => o.field sup == v)).map (fun o => o.field sub)

/-- Embedding of `valid_taxonomy` from catalog/views.py: when the
supercategory value is truthy, the subcategory value is kept only if it
occurs among the subcategory column values of the rows matching the
supercategory; otherwise it is replaced by None.  When the supercategory is
falsy the subcategory value passes through unchanged. -/
def valid_taxonomy (db : List Organism) (subcategory_value : Option String)
    (subcategory_label : TaxField) (supercategory_value : Option String)
    (supercategory_label : TaxField) : Option String :=
  if pyTruthy supercategory_value then
    if subcategory_value ∈
        taxonomy_values db subcategory_label supercategory_label supercategory_value then
      subcategory_value
    else none
  else subcategory_value

/-- Lowercased character list of a string, modelling Python str.lower. -/
def lowerChars (s : String) : List Char := s.data.map Char.toLower

/-- Django `field__icontains=query` on a nullable column: false on NULL,
case-insensitive substring test otherwise. -/
def icontains (field : Option String) (query : String) : Bool :=
  match field with
  | none => false
  | some s => decide (lowerChars query <:+: lowerChars s)

/-- The free-text search filter of `OrganismListView.get_queryset`: a row
matches when the query occurs case-insensitively in any of the five
searched columns. -/
def search_filter (query : String) (o : Organism) : Bool :=
  icontains (some o.scientific_name) query || icontains o.common_name query ||
  icontains o.kingdom query || icontains o.phylum query ||
  icontains o.class_name query

/-- Code-point lexicographic order on character lists, modelling the
ordering used by `order_by('scientific_name')`. -/
def charListLe : List Char → List Char → Bool
  | [], _ => true
  | _ :: _, [] => false
  | a :: as, b :: bs => if a = b then charListLe as bs else decide (a.toNat < b.toNat)

/-- Insert an Organism row into a list sorted by scientific name. -/
def insertByName (o : Organism) : List Organism → List Organism
  | [] => [o]
  | x :: xs =>
      if charListLe o.scientific_name.data x.scientific_name.data then o :: x :: xs
      else x :: insertByName o xs

/-- Sorting by scientific name, modelling `order_by('scientific_name')`. -/
def order_by_name : List Organism → List Organism
  | [] => []
  | x :: xs => insertByName x (order_by_name xs)

/-- The free-text stage of `get_queryset`: applied only when the query
string is truthy. -/
def text_stage (db : List Organism) (query : String) : List Organism :=
  if query ≠ "" then db.filter (search_filter query) else db

/-- One equality-filter stage of `get_queryset`: the filter on a taxonomy
column is applied only when the (validated) parameter is truthy. -/
def eq_stage (qs : List Organism) (f : TaxField) (v : Option String) : List Organism :=
  if pyTruthy v then qs.filter (fun o => o.field f == v) else qs

/-- Embedding of `OrganismListView.get_queryset` from catalog/views.py:
the phylum parameter is validated against the kingdom, the class parameter
against the kingdom and then against the surviving phylum; the free-text
filter and the surviving equality filters are applied in order and the
result is ordered by scientific name. -/
def get_queryset (db : List Organism) (query : String)
    (kingdom phylum class_name : Option String) : List Organism :=
  order_by_name
    (eq_stage
      (eq_stage
        (eq_stage (text_stage db query) TaxField.kingdom kingdom)
        TaxField.phylum
        (valid_taxonomy db phylum TaxField.phylum kingdom TaxField.kingdom))
      TaxField.class_name
      (valid_taxonomy db
        (valid_taxonomy db class_name TaxField.class_name kingdom TaxField.kingdom)
        TaxField.class_name
        (valid_taxonomy db phylum TaxField.phylum kingdom TaxField.kingdom)
        TaxField.phylum))

/- ------------------------------------------------------------------ -/
/- catalog/models.py, Reference.get_reference_info_from_doi            -/
/- ------------------------------------------------------------------ -/

/-- One CrossRef author entry, with the optional given and family name
fields read by the author loop. -/
structure CrossRefAuthor where
  given : Option String
  family : Option String
deriving DecidableEq

/-- The CrossRef date container: an optional date-parts list of lists. -/
structure DatePartsField where
  date_parts : Option (List (List (Option Int)))
deriving DecidableEq

/-- The message object of a CrossRef works response, with exactly the
fields the code reads; every field may be absent. -/
structure CrossRefMessage where
  title : Option (List String)
  author : Option (List CrossRefAuthor)
  container_title : Option (List String)
  published_print : Option DatePartsField
  published_online : Option DatePartsField
  publisher : Option String
  url : Option String
  work_type : Option String
deriving DecidableEq

/-- Outcome of the requests.get, raise_for_status and json() steps of the
lookup: an HTTPError raised by raise_for_status, any other exception from
the transport or JSON decoding, or a parsed message object. -/
inductive FetchOutcome
  | httpError (msg : String)
  | otherError (msg : String)
  | success (message : CrossRefMessage)
deriving DecidableEq

/-- The result dictionary built by get_reference_info_from_doi: it always
carries the title, authors, journal and year fields. -/
structure RefInfo where
  title : String
  authors : List String
  journal : String
  year : Option Int
  publisher : Option String
  doi : String
  url : Option String
  work_type : Option String
deriving DecidableEq

/-- Python indexing xs[0]: an IndexError on an empty list. -/
def pyIndex0 (xs : List α) : Except String α :=
  match xs with
  | [] => Except.error "IndexError"
  | a :: _ => Except.ok a

/-- The author loop of get_reference_info_from_doi: join given and family
names with a space, strip, and keep only truthy names. -/
def author_names (authors : List CrossRefAuthor) : List String :=
  (authors.map (fun a => ((a.given.getD "") ++ " " ++ (a.family.getD "")).trim)).filter
    (fun s => s ≠ "")

/-- Python expression a or b on optional integers: None and 0 are falsy. -/
def pyOrInt (a b : Option Int) : Option Int :=
  match a with
  | some v => if v ≠ 0 then some v else b
  | none => b

/-- Embedding of message.get(key, {}).get("date-parts", [[None]])[0][0]:
both indexings can raise an IndexError on empty lists. -/
def date_parts_first (h : Option DatePartsField) : Except String (Option Int) :=
  match pyIndex0 ((h.map (fun x => x.date_parts.getD [[none]])).getD [[none]]) with
  | Except.error e => Except.error e
  | Except.ok first => pyIndex0 first

/-- The year expression of the result dictionary: the print date or, when
that is falsy, the online date; Python short-circuits, so the online
date-parts are only indexed when the print year is falsy. -/
def crossref_year (m : CrossRefMessage) : Except String (Option Int) :=
  match date_parts_first m.published_print with
  | Except.error e => Except.error e
  | Except.ok a =>
      match a with
      | some v =>
          if v ≠ 0 then Except.ok (some v) else date_parts_first m.published_online
      | none => date_parts_first m.published_online

/-- The body of the try block after a successful fetch: build the result
dictionary; the title, journal and year extractions can raise IndexError,
which the enclosing except clause turns into an absent result. -/
def crossref_result (doi : String) (m : CrossRefMessage) : Except String RefInfo :=
  match pyIndex0 (m.title.getD [""]) with
  | Except.error e => Except.error e
  | Except.ok title =>
      match pyIndex0 (m.container_title.getD [""]) with
      | Except.error e => Except.error e
      | Except.ok journal =>
          match crossref_year m with
          | Except.error e => Except.error e
          | Except.ok year =>
              Except.ok
                { title := title, authors := author_names (m.author.getD []),
                  journal := journal, year := year, publisher := m.publisher,
                  doi := doi, url := m.url, work_type := m.work_type }

/-- Embedding of Reference.get_reference_info_from_doi: on a successful
fetch-and-extract it returns the result dictionary, on an HTTPError or on
any other exception it returns None together with the printed error line. -/
def get_reference_info_from_doi (doi : String) (outcome : FetchOutcome) :
    Option RefInfo × List String :=
  match outcome with
  | FetchOutcome.httpError e =>
      (none, ["HTTP error when fetching DOI " ++ doi ++ ": " ++ e])
  | FetchOutcome.otherError e =>
      (none, ["Error when fetching DOI " ++ doi ++ ": " ++ e])
  | FetchOutcome.success m =>
      match crossref_result doi m with
      | Except.ok r => (some r, [])
      | Except.error e => (none, ["Error when fetching DOI " ++ doi ++ ": " ++ e])

/- ------------------------------------------------------------------ -/
/- catalog/models.py, Organism taxonomy resolution                     -/
/- ------------------------------------------------------------------ -/

/-- A taxonomy record returned by the Entrez efetch call: scientific name,
synonym names, optional GenBank common name, and the LineageEx list of
(Rank, ScientificName) pairs. -/
structure TaxRecord where
  scientificName : String
  synonyms : List String
  genbankCommonName : Option String
  lineageEx : List (String × String)
deriving DecidableEq

/-- The ValueError raised by organism resolution: the search-step error
(also covering the empty id list, whose inner ValueError is re-raised by
the except clause as the generic search error) and the no-exact-match
error of the record scan. -/
inductive ResolveError
  | searchError (name : String)
  | noExactMatch (name : String)
deriving DecidableEq

/-- Embedding of Organism.get_organism_NCBI_id: the esearch outcome is
None when the Entrez call raises, otherwise the returned IdList.  An
exception or an empty id list both surface as the search ValueError,
because the no-organism ValueError is raised inside the try block and
re-wrapped by the except clause. -/
def get_organism_NCBI_id (esearch : Option (List String)) (scientific_name : String) :
    Except ResolveError (List String) :=
  match esearch with
  | none => Except.error (ResolveError.searchError scientific_name)
  | some id_list =>
      if id_list.isEmpty then Except.error (ResolveError.searchError scientific_name)
      else Except.ok id_list

/-- Whether a taxonomy record matches the queried name: case-insensitive
equality with the scientific name, or membership among the lowercased
synonyms. -/
def rec_matches (scientific_name : String) (r : TaxRecord) : Bool :=
  lowerChars r.scientificName == lowerChars scientific_name ||
  (r.synonyms.map lowerChars).contains (lowerChars scientific_name)

/-- Lookup in the lineage dictionary built rank by rank; a later duplicate
rank overwrites an earlier one, as in a Python dict comprehension. -/
def lineage_get (lineageEx : List (String × String)) (rank : String) : Option String :=
  (lineageEx.reverse.find? (fun it => it.1 == rank)).map (fun it => it.2)

/-- The organism dictionary assembled by _find_organism_data for a
matching record. -/
structure OrganismData where
  scientific_name : String
  common_name : Option String
  kingdom : Option String
  phylum : Option String
  class_name : Option String
  ncbi_url : String
deriving DecidableEq

/-- The dictionary returned for a matching record of a given tax id. -/
def organism_data_of (scientific_name : String) (tax_id : String) (r : TaxRecord) :
    OrganismData :=
  { scientific_name := scientific_name
    common_name := r.genbankCommonName
    kingdom := lineage_get r.lineageEx "kingdom"
    phylum := lineage_get r.lineageEx "phylum"
    class_name := lineage_get r.lineageEx "class"
    ncbi_url := "https://www.ncbi.nlm.nih.gov/Taxonomy/Browser/wwwtax.cgi?id=" ++ tax_id }

/-- Embedding of Organism._find_organism_data: obtain the id list, fetch
the records of each id in order (efetch models the Entrez fetch), and
return the data of the first matching record; raise the no-exact-match
ValueError when no record matches. -/
def find_organism_data (esearch : Option (List String)) (efetch : String → List TaxRecord)
    (scientific_name : String) : Except ResolveError OrganismData :=
  match get_organism_NCBI_id esearch scientific_name with
  | Except.error e => Except.error e
  | Except.ok id_list =>
      match (id_list.flatMap (fun tid => (efetch tid).map (fun r => (tid, r)))).find?
          (fun pr => rec_matches scientific_name pr.2) with
      | some pr => Except.ok (organism_data_of scientific_name pr.1 pr.2)
      | none => Except.error (ResolveError.noExactMatch scientific_name)

/-- Embedding of the single-keyword path of Organism.get_or_create_organism:
resolve the data, re-raise a resolution ValueError, and otherwise
get-or-create the row keyed by scientific name in the Organism table. -/
def get_or_create_organism (esearch : Option (List String))
    (efetch : String → List TaxRecord) (scientific_name : String)
    (organisms : List OrganismData) :
    Except ResolveError (OrganismData × Bool × List OrganismData) :=
  match find_organism_data esearch efetch scientific_name with
  | Except.error e => Except.error e
  | Except.ok data =>
      match organisms.find? (fun o => o.scientific_name == data.scientific_name) with
      | some o => Except.ok (o, false, organisms)
      | none => Except.ok (data, true, organisms ++ [data])

/- ------------------------------------------------------------------ -/
/- catalog/models.py, Database and Reference formatting                -/
/- ------------------------------------------------------------------ -/

/-- Row of the Database table: the name is the primary key and the URL
pattern and default URL are nullable. -/
structure DatabaseRow where
  database_name : String
  url_pattern : Option String
  default_url : Option String
deriving DecidableEq

/-- Python str of a Database instance: the name, or a placeholder when the
name is falsy. -/
def database_str (d : DatabaseRow) : String :=
  if d.database_name ≠ "" then d.database_name else "Unnamed Database"

/-- Row of the Reference table: a nullable foreign key to Database and a
nullable accession; the current schema has no URL column. -/
structure ReferenceRow where
  database : Option DatabaseRow
  db_accession : Option String
deriving DecidableEq

/-- Rendering of the optional database foreign key inside an f-string:
Python renders None as the literal None. -/
def database_fstr : Option DatabaseRow → String
  | none => "None"
  | some d => database_str d

/-- Embedding of the default branch of Reference.__format__ (which equals
Reference.__str__): the database followed by the accession or a
placeholder. -/
def reference_format_default (r : ReferenceRow) : String :=
  database_fstr r.database ++ ": " ++ pyOrStr r.db_accession "No reference ID"

/-- Scanner for Python str.replace, structurally recursive on a fuel
argument that bounds the number of characters still to scan: at each
position an occurrence of the (non-empty) pattern is replaced and skipped,
otherwise one character is emitted. -/
def replaceCharsAux (pat rep : List Char) : Nat → List Char → List Char
  | _, [] => []
  | 0, s => s
  | Nat.succ fuel, c :: rest =>
      if pat ≠ [] ∧ pat.isPrefixOf (c :: rest) then
        rep ++ replaceCharsAux pat rep fuel (List.drop (pat.length - 1) rest)
      else c :: replaceCharsAux pat rep fuel rest

/-- Python str.replace on character lists: each occurrence of the pattern
is replaced by the replacement, scanning left to right.  The scanner
consumes at least one character per step, so the length of the string is
enough fuel. -/
def replaceChars (pat rep s : List Char) : List Char :=
  replaceCharsAux pat rep s.length s

/-- Embedding of the spec all branch of Reference.__format__: it reads
database_name and url_pattern off the foreign key and substitutes the
accession into the pattern.  A missing database or URL pattern raises an
AttributeError and a missing accession a TypeError inside the f-string,
modelled as errors. -/
def reference_format_all (r : ReferenceRow) : Except String String :=
  match r.database with
  | none => Except.error "AttributeError"
  | some d =>
      match d.url_pattern, r.db_accession with
      | some pattern, some acc =>
          Except.ok ("Database: " ++ d.database_name ++ "\n\tAccession: " ++
            pyOrStr r.db_accession "(no accession)" ++ "\n\tURL: " ++
            String.mk (replaceChars "\x7bid\x7d".data acc.data pattern.data) ++ "\n")
      | none, _ => Except.error "AttributeError"
      | _, none => Except.error "TypeError"

/- ------------------------------------------------------------------ -/
/- proteins/services.py and proteins/models.py: import persistence      -/
/- ------------------------------------------------------------------ -/

/-- Row of the PeptideSequence table; the hash column is maintained by
save from the sequence text. -/
structure PeptideRow where
  id : Nat
  aa_seq : String
  peptideseq_hash : String
deriving DecidableEq

/-- Embedding of PeptideSequence.save: when aa_seq is truthy the hash
column is recomputed as the md5 hex digest of the sequence before the row
is stored.  The hashlib md5 hex digest is library code, not part of this
repository, and is modelled as an abstract function parameter; only its
determinism is used by the proofs. -/
def PeptideRow.save (md5 : String → String) (r : PeptideRow) : PeptideRow :=
  if r.aa_seq ≠ "" then { r with peptideseq_hash := md5 r.aa_seq } else r

/-- Row of the Reference table: nullable foreign key to Database (by its
primary-key name) and nullable accession. -/
structure RefRow where
  id : Nat
  database : Option String
  db_accession : Option String
deriving DecidableEq

/-- Row of the Protein table (proteins/models.py): the sequence foreign
key (by peptide row id) and the nullable descriptive columns; organism is
declared nullable by the model. -/
structure ProteinRow where
  id : Nat
  sequence : Nat
  protein_name : Option String
  gene_name : Option String
  protein_function : Option String
  organism : Option String
  uniprot_code : Option String
deriving DecidableEq

/-- One cross-reference dictionary of a metadata record, with the database
and id entries read by add_references. -/
structure RefMeta where
  database : Option String
  id : Option String
deriving DecidableEq

/-- One protein metadata dictionary as produced by get_protein_metadata,
together with the model flag creation_fails describing whether the
database layer raises when the Protein get-or-create of this record runs
(the exception caught by the try/except block of
create_proteins_from_metadata). -/
structure ProteinMeta where
  accession : Option String
  protein_name : Option String
  gene_name : Option String
  protein_function : Option String
  sequence : Option String
  refs : List RefMeta
  creation_fails : Bool
deriving DecidableEq

/-- The database state threaded through the import pipeline: the Database,
PeptideSequence, Reference and Protein tables, the many-to-many links
between peptide rows and reference rows, and the id counter for inserted
rows. -/
structure DB where
  databases : List String
  peptides : List PeptideRow
  ref_rows : List RefRow
  peptide_refs : List (Nat × Nat)
  proteins : List ProteinRow
  next_id : Nat
deriving DecidableEq

/-- The empty database state. -/
def DB.empty : DB := ⟨[], [], [], [], [], 0⟩

/-- Lookup predicate of PeptideSequence.objects.get_or_create(aa_seq=s). -/
def peptide_lookup (aa_seq : String) (r : PeptideRow) : Bool :=
  r.aa_seq == aa_seq

/-- Lookup predicate of Reference.objects.get_or_create(database=d,
db_accession=e). -/
def ref_lookup (db_name eid : String) (r : RefRow) : Bool :=
  r.database == some db_name && r.db_accession == some eid

/-- Lookup predicate of the Protein get-or-create call: all six keyword
arguments are lookup fields. -/
def protein_match (sid : Nat) (pname gname pfun org acc : Option String)
    (pr : ProteinRow) : Bool :=
  pr.sequence == sid && pr.protein_name == pname && pr.gene_name == gname &&
  pr.protein_function == pfun && pr.organism == org && pr.uniprot_code == acc

/-- Embedding of PeptideSequence.objects.get_or_create(aa_seq=s): return
the first matching row, or insert a new row (saved, so its hash column is
set from the sequence). -/
def peptide_get_or_create (md5 : String → String) (db : DB) (aa_seq : String) :
    PeptideRow × Bool × DB :=
  match db.peptides.find? (peptide_lookup aa_seq) with
  | some r => (r, false, db)
  | none =>
      let r := PeptideRow.save md5 { id := db.next_id, aa_seq := aa_seq, peptideseq_hash := "" }
      (r, true, { db with peptides := db.peptides ++ [r], next_id := db.next_id + 1 })

/-- Embedding of Reference.objects.get_or_create(database=d,
db_accession=e) as called from add_references. -/
def reference_get_or_create (db : DB) (db_name eid : String) : RefRow × Bool × DB :=
  match db.ref_rows.find? (ref_lookup db_name eid) with
  | some r => (r, false, db)
  | none =>
      let r : RefRow := { id := db.next_id, database := some db_name, db_accession := some eid }
      (r, true, { db with ref_rows := db.ref_rows ++ [r], next_id := db.next_id + 1 })

/-- Django many-to-many add: the link is inserted only when absent. -/
def add_link (db : DB) (pep ref : Nat) : DB :=
  if (pep, ref) ∈ db.peptide_refs then db
  else { db with peptide_refs := db.peptide_refs ++ [(pep, ref)] }

/-- One iteration of PeptideSequence.add_references: skip falsy database
names or external ids, and skip database names absent from the Database
table (the caught DoesNotExist); otherwise get-or-create the reference row
and link it to the peptide row.  The replacements table of the code is
empty, so database names pass through unchanged. -/
def add_reference_step (db : DB) (pep : Nat) (ref : RefMeta) : DB :=
  if pyTruthy ref.database && pyTruthy ref.id then
    if ref.database.getD "" ∈ db.databases then
      let g := reference_get_or_create db (ref.database.getD "") (ref.id.getD "")
      add_link g.2.2 pep g.1.id
    else db
  else db

/-- Embedding of PeptideSequence.add_references over a reference list. -/
def add_references (db : DB) (pep : Nat) (refs : List RefMeta) : DB :=
  refs.foldl (fun db ref => add_reference_step db pep ref) db

/-- The unconditional part of one loop iteration of
create_proteins_from_metadata: get-or-create the peptide row of the
record's sequence text, then attach the record's references to it. -/
def sequence_stage (md5 : String → String) (db : DB) (m : ProteinMeta) : Nat × DB :=
  let g := peptide_get_or_create md5 db (m.sequence.getD "")
  (g.1.id, add_references g.2.2 g.1.id m.refs)

/-- Embedding of the Protein get-or-create call of the try block. -/
def protein_get_or_create (db : DB) (sid : Nat)
    (pname gname pfun org acc : Option String) : (ProteinRow × Bool) × DB :=
  match db.proteins.find? (protein_match sid pname gname pfun org acc) with
  | some pr => ((pr, false), db)
  | none =>
      let pr : ProteinRow :=
        { id := db.next_id, sequence := sid, protein_name := pname,
          gene_name := gname, protein_function := pfun, organism := org, uniprot_code := acc }
      ((pr, true), { db with proteins := db.proteins ++ [pr], next_id := db.next_id + 1 })

/-- One loop iteration of create_proteins_from_metadata: a record with a
falsy sequence is skipped entirely; otherwise the peptide row and the
references are persisted, and the Protein get-or-create runs inside the
try block: when the database layer raises (creation_fails) the exception
is caught and printed, otherwise the returned pair is appended to the
created list exactly as the code appends the un-unpacked tuple. -/
def process_record (md5 : String → String) (organism : Option String) (db : DB)
    (m : ProteinMeta) : List (ProteinRow × Bool) × List String × DB :=
  if pyTruthy m.sequence then
    let s := sequence_stage md5 db m
    if m.creation_fails then ([], ["protein creation failed"], s.2)
    else
      let pc := protein_get_or_create s.2 s.1 m.protein_name m.gene_name
        m.protein_function organism m.accession
      ([pc.1], [], pc.2)
  else ([], [], db)

/-- Embedding of create_proteins_from_metadata from proteins/services.py
(the declared reference parameter is unused by the body and omitted):
fold over the metadata records accumulating the created list, the printed
error lines and the database state. -/
def create_proteins_from_metadata (md5 : String → String) (metas : List ProteinMeta)
    (organism : Option String) (db : DB) :
    List (ProteinRow × Bool) × List String × DB :=
  match metas with
  | [] => ([], [], db)
  | m :: rest =>
      let pr := process_record md5 organism db m
      let re := create_proteins_from_metadata md5 rest organism pr.2.2
      (pr.1 ++ re.1, pr.2.1 ++ re.2.1, re.2.2)

/-- The progress strings written to the cache by task_add_proteins before
the persistence step returns, in order. -/
def task_progress_updates : List String :=
  ["Organism validations...", "Getting organism proteins...",
   "Getting proteins metadata...", "Adding organism proteins to database..."]

/-- Python unpacking a, b = xs of a list into two variables: a ValueError
unless the list has exactly two elements. -/
def pyUnpack2 (xs : List α) : Except String (α × α) :=
  match xs with
  | [a, b] => Except.ok (a, b)
  | _ => Except.error "ValueError: unpacking requires exactly two values"

/-- Embedding of the task body task_add_proteins from proteins/views.py,
from the point where the organism and the metadata list are available (the
organism resolution and the two fetch steps are modelled by the inputs):
the cache entry is overwritten with each progress string in turn, the
persistence step runs, and its returned list is unpacked into two
variables; on the unpacking ValueError the task raises and the final
cache write never happens.  Returns the task outcome together with the
sequence of cache writes. -/
def task_add_proteins (md5 : String → String) (metas : List ProteinMeta)
    (organism : Option String) (db : DB) :
    Except String (ProteinRow × Bool) × List String :=
  let created := (create_proteins_from_metadata md5 metas organism db).1
  match pyUnpack2 created with
  | Except.error e => (Except.error e, task_progress_updates)
  | Except.ok ab => (Except.ok ab.1, task_progress_updates ++ ["Task completed"])

/- ------------------------------------------------------------------ -/
/- Invariants and auxiliary predicates for the import pipeline         -/
/- ------------------------------------------------------------------ -/

/-- Extension order on database states: the Database table unchanged and
every other table extended by appended rows only. -/
def DB.Ext (db db' : DB) : Prop :=
  db'.databases = db.databases ∧
  (∃ t, db'.peptides = db.peptides ++ t) ∧
  (∃ t, db'.ref_rows = db.ref_rows ++ t) ∧
  (∃ t, db'.peptide_refs = db.peptide_refs ++ t) ∧
  (∃ t, db'.proteins = db.proteins ++ t)

/-- A reference dictionary that add_references will actually persist:
truthy database name and id, with the database present in the Database
table. -/
def valid_ref (db : DB) (ref : RefMeta) : Prop :=
  pyTruthy ref.database = true ∧ pyTruthy ref.id = true ∧
  ref.database.getD "" ∈ db.databases

/-- A reference dictionary whose row and link to the peptide row pep are
present in the database state. -/
def ref_established (pep : Nat) (ref : RefMeta) (db : DB) : Prop :=
  ∃ r, db.ref_rows.find? (ref_lookup (ref.database.getD "") (ref.id.getD "")) = some r ∧
    (pep, r.id) ∈ db.peptide_refs

/-- All artifacts of one metadata record are present in a database state:
the peptide row found by the sequence lookup, a reference row and link for
every persistable reference dictionary of the record and, unless the
record's protein creation raises, the protein row of the record's lookup
key. -/
def record_handled (organism : Option String) (m : ProteinMeta) (db : DB) : Prop :=
  pyTruthy m.sequence = true →
  ∃ p, db.peptides.find? (peptide_lookup (m.sequence.getD "")) = some p ∧
    (∀ ref ∈ m.refs, valid_ref db ref → ref_established p.id ref db) ∧
    (m.creation_fails = false →
      (db.proteins.find? (protein_match p.id m.protein_name m.gene_name
        m.protein_function organism m.accession)).isSome = true)

/-- The six-column lookup key of a Protein row. -/
def protein_key (p : ProteinRow) :
    Nat × Option String × Option String × Option String × Option String × Option String :=
  (p.sequence, p.protein_name, p.gene_name, p.protein_function, p.organism, p.uniprot_code)

/-- No two peptide rows share a sequence (the state of affairs enforced by
the unique hash constraint together with the hash invariant). -/
def peptides_unique (db : DB) : Prop :=
  db.peptides.Pairwise (fun a b => a.aa_seq ≠ b.aa_seq)

/-- No two protein rows share the six-column lookup key. -/
def proteins_unique (db : DB) : Prop :=
  db.proteins.Pairwise (fun a b => protein_key a ≠ protein_key b)

/-! ## Theorems -/

/-- Claim C3 (counterexample): at threshold 4 the half width is 0 and the
Python slice for the trailing part returns the whole sequence, so on the
five-character sequence AAAAA the preview is not the claimed first-half,
ellipsis, last-half decomposition. -/
theorem C3_counterexample :
    ¬ (get_seq_preview "AAAAA".data 4 =
        "AAAAA".data.take ((4 - 3) / 2) ++ "...".data ++
        "AAAAA".data.drop ("AAAAA".data.length - (4 - 3) / 2)) := by decide

/-- Claim C3 (amended): whenever the sequence is longer than the threshold
and the half width (max_length - 3) / 2 is at least 1 (in particular for
the default threshold 30), the preview is the first half-width characters,
an ellipsis, and the last half-width characters; a sequence of length at
most the threshold is returned unchanged. -/
theorem C3_get_seq_preview_spec (aa_seq : List Char) (max_length : Nat) :
    (max_length < aa_seq.length → 1 ≤ (max_length - 3) / 2 →
      get_seq_preview aa_seq max_length =
        aa_seq.take ((max_length - 3) / 2) ++ "...".data ++
        aa_seq.drop (aa_seq.length - (max_length - 3) / 2)) ∧
    (aa_seq.length ≤ max_length → get_seq_preview aa_seq max_length = aa_seq) := by
  constructor
  · intro hlen hhalf
    have hnle : ¬ aa_seq.length ≤ max_length := by omega
    have hne : ¬ (max_length - 3) / 2 = 0 := by omega
    simp only [get_seq_preview, if_neg hnle, pyTakeLast, if_neg hne]
  · intro hle
    simp only [get_seq_preview, if_pos hle]

/-- Witness for the amended C3 theorem at a 40-character sequence with the
default threshold 30, and at a short sequence. -/
theorem C3_witness :
    (get_seq_preview "ABCDEFGHIJKLMNOPQRSTUVWXYZ0123456789XYZW".data 30 =
      "ABCDEFGHIJKLMNOPQRSTUVWXYZ0123456789XYZW".data.take ((30 - 3) / 2) ++ "...".data ++
      "ABCDEFGHIJKLMNOPQRSTUVWXYZ0123456789XYZW".data.drop
        ("ABCDEFGHIJKLMNOPQRSTUVWXYZ0123456789XYZW".data.length - (30 - 3) / 2)) ∧
    get_seq_preview "AB".data 30 = "AB".data :=
  ⟨(C3_get_seq_preview_spec _ 30).1 (by decide) (by decide),
   (C3_get_seq_preview_spec _ 30).2 (by decide)⟩

theorem mem_insertByName {a o : Organism} {l : List Organism} :
    a ∈ insertByName o l ↔ a = o ∨ a ∈ l := by
  induction l with
  | nil => simp [insertByName]
  | cons x xs ih =>
      simp only [insertByName]
      by_cases h : charListLe o.scientific_name.data x.scientific_name.data = true
      · rw [if_pos h]
        simp only [List.mem_cons]
      · rw [if_neg h]
        simp only [List.mem_cons, ih]
        tauto

theorem mem_order_by_name {a : Organism} {l : List Organism} :
    a ∈ order_by_name l ↔ a ∈ l := by
  induction l with
  | nil => simp [order_by_name]
  | cons x xs ih => simp [order_by_name, mem_insertByName, ih]

theorem valid_taxonomy_not_truthy {db : List Organism} {subV : Option String}
    {subF : TaxField} {supV : Option String} {supF : TaxField}
    (h : pyTruthy supV = false) :
    valid_taxonomy db subV subF supV supF = subV := by
  simp [valid_taxonomy, h]

theorem valid_taxonomy_not_mem {db : List Organism} {subV : Option String}
    {subF : TaxField} {supV : Option String} {supF : TaxField}
    (h : pyTruthy supV = true) (hm : subV ∉ taxonomy_values db subF supF supV) :
    valid_taxonomy db subV subF supV supF = none := by
  simp [valid_taxonomy, h, hm]

theorem valid_taxonomy_mem {db : List Organism} {subV : Option String}
    {subF : TaxField} {supV : Option String} {supF : TaxField}
    (h : pyTruthy supV = true) (hm : subV ∈ taxonomy_values db subF supF supV) :
    valid_taxonomy db subV subF supV supF = subV := by
  simp [valid_taxonomy, h, hm]

theorem valid_taxonomy_none {db : List Organism} {subF : TaxField}
    {supV : Option String} {supF : TaxField} :
    valid_taxonomy db none subF supV supF = none := by
  simp [valid_taxonomy]

theorem mem_of_mem_eq_stage {qs : List Organism} {f : TaxField}
    {v : Option String} {o : Organism} (h : o ∈ eq_stage qs f v) : o ∈ qs := by
  unfold eq_stage at h
  split at h
  · exact (List.mem_filter.mp h).1
  · exact h

theorem eq_stage_truthy {qs : List Organism} {f : TaxField} {v : Option String}
    (h : pyTruthy v = true) :
    eq_stage qs f v = qs.filter (fun o => o.field f == v) := by
  simp [eq_stage, h]

theorem valid_taxonomy_falsy {db : List Organism} {subV : Option String}
    {subF : TaxField} {supV : Option String} {supF : TaxField}
    (h : pyTruthy subV = false) :
    pyTruthy (valid_taxonomy db subV subF supV supF) = false := by
  unfold valid_taxonomy
  by_cases h1 : pyTruthy supV = true
  · rw [if_pos h1]
    by_cases h2 : subV ∈ taxonomy_values db subF supF supV
    · rw [if_pos h2]
      exact h
    · rw [if_neg h2]
      rfl
  · rw [if_neg h1]
    exact h

/-- Claim C4: in the organism listing view, a requested child-level
taxonomy value (phylum under kingdom, or class under kingdom or phylum)
that is not among the values of that column actually associated with the
selected parent value in the stored rows is discarded, so the queryset is
the one computed with that parameter absent; a child value that does
belong to its selected parents is applied as an equality filter on every
row of the result.  The class-under-phylum cases are covered both with and
without a selected kingdom, and enforcement is proved for phylum and for
class under each parent configuration. -/
theorem C4_hierarchical_taxonomy_filter (db : List Organism) (q : String)
    (k p c : Option String) :
    (pyTruthy k = true → p ∉ taxonomy_values db TaxField.phylum TaxField.kingdom k →
      get_queryset db q k p c = get_queryset db q k none c) ∧
    (pyTruthy k = true → c ∉ taxonomy_values db TaxField.class_name TaxField.kingdom k →
      get_queryset db q k p c = get_queryset db q k p none) ∧
    (pyTruthy k = false → pyTruthy p = true →
      c ∉ taxonomy_values db TaxField.class_name TaxField.phylum p →
      get_queryset db q k p c = get_queryset db q k p none) ∧
    (pyTruthy k = true → pyTruthy p = true →
      p ∈ taxonomy_values db TaxField.phylum TaxField.kingdom k →
      c ∉ taxonomy_values db TaxField.class_name TaxField.phylum p →
      get_queryset db q k p c = get_queryset db q k p none) ∧
    (pyTruthy k = true → pyTruthy p = true →
      p ∈ taxonomy_values db TaxField.phylum TaxField.kingdom k →
      ∀ o ∈ get_queryset db q k p c, o.phylum = p) ∧
    (pyTruthy k = true → pyTruthy p = true →
      p ∈ taxonomy_values db TaxField.phylum TaxField.kingdom k →
      pyTruthy c = true →
      c ∈ taxonomy_values db TaxField.class_name TaxField.kingdom k →
      c ∈ taxonomy_values db TaxField.class_name TaxField.phylum p →
      ∀ o ∈ get_queryset db q k p c, o.class_name = c) ∧
    (pyTruthy k = false → pyTruthy p = true → pyTruthy c = true →
      c ∈ taxonomy_values db TaxField.class_name TaxField.phylum p →
      ∀ o ∈ get_queryset db q k p c, o.class_name = c) ∧
    (pyTruthy k = true → pyTruthy p = false → pyTruthy c = true →
      c ∈ taxonomy_values db TaxField.class_name TaxField.kingdom k →
      ∀ o ∈ get_queryset db q k p c, o.class_name = c) := by
  refine ⟨?_, ?_, ?_, ?_, ?_, ?_, ?_, ?_⟩
  · intro hk hp
    have h1 : valid_taxonomy db p TaxField.phylum k TaxField.kingdom = none :=
      valid_taxonomy_not_mem hk hp
    simp only [get_queryset, h1, valid_taxonomy_none]
  · intro hk hc
    have h1 : valid_taxonomy db c TaxField.class_name k TaxField.kingdom = none :=
      valid_taxonomy_not_mem hk hc
    simp only [get_queryset, h1, valid_taxonomy_none]
  · intro hk hp hc
    have hphy : valid_taxonomy db p TaxField.phylum k TaxField.kingdom = p :=
      valid_taxonomy_not_truthy hk
    have hcls1 : valid_taxonomy db c TaxField.class_name k TaxField.kingdom = c :=
      valid_taxonomy_not_truthy hk
    have hcls2 : valid_taxonomy db c TaxField.class_name p TaxField.phylum = none :=
      valid_taxonomy_not_mem hp hc
    simp only [get_queryset, hphy, hcls1, hcls2, valid_taxonomy_none]
  · intro hk hp hpm hc
    have hphy : valid_taxonomy db p TaxField.phylum k TaxField.kingdom = p :=
      valid_taxonomy_mem hk hpm
    have hcls2 : valid_taxonomy db c TaxField.class_name p TaxField.phylum = none :=
      valid_taxonomy_not_mem hp hc
    by_cases hm : c ∈ taxonomy_values db TaxField.class_name TaxField.kingdom k
    · have hcls1 : valid_taxonomy db c TaxField.class_name k TaxField.kingdom = c :=
        valid_taxonomy_mem hk hm
      simp only [get_queryset, hphy, hcls1, hcls2, valid_taxonomy_none]
    · have hcls1 : valid_taxonomy db c TaxField.class_name k TaxField.kingdom = none :=
        valid_taxonomy_not_mem hk hm
      simp only [get_queryset, hphy, hcls1, valid_taxonomy_none]
  · intro hk hp hmem o ho
    have hphy : valid_taxonomy db p TaxField.phylum k TaxField.kingdom = p :=
      valid_taxonomy_mem hk hmem
    simp only [get_queryset, hphy, mem_order_by_name] at ho
    have h2 := mem_of_mem_eq_stage ho
    rw [eq_stage_truthy hp] at h2
    have h3 := (List.mem_filter.mp h2).2
    simpa [Organism.field] using h3
  · intro hk hp hpm hc hck hcp o ho
    have hphy : valid_taxonomy db p TaxField.phylum k TaxField.kingdom = p :=
      valid_taxonomy_mem hk hpm
    have hcls1 : valid_taxonomy db c TaxField.class_name k TaxField.kingdom = c :=
      valid_taxonomy_mem hk hck
    have hcls2 : valid_taxonomy db c TaxField.class_name p TaxField.phylum = c :=
      valid_taxonomy_mem hp hcp
    simp only [get_queryset, hphy, hcls1, hcls2, mem_order_by_name] at ho
    rw [eq_stage_truthy hc] at ho
    have h3 := (List.mem_filter.mp ho).2
    simpa [Organism.field] using h3
  · intro hk hp hc hcp o ho
    have hphy : valid_taxonomy db p TaxField.phylum k TaxField.kingdom = p :=
      valid_taxonomy_not_truthy hk
    have hcls1 : valid_taxonomy db c TaxField.class_name k TaxField.kingdom = c :=
      valid_taxonomy_not_truthy hk
    have hcls2 : valid_taxonomy db c TaxField.class_name p TaxField.phylum = c :=
      valid_taxonomy_mem hp hcp
    simp only [get_queryset, hphy, hcls1, hcls2, mem_order_by_name] at ho
    rw [eq_stage_truthy hc] at ho
    have h3 := (List.mem_filter.mp ho).2
    simpa [Organism.field] using h3
  · intro hk hp hc hck o ho
    have hcls1 : valid_taxonomy db c TaxField.class_name k TaxField.kingdom = c :=
      valid_taxonomy_mem hk hck
    have hcls2 : valid_taxonomy db c TaxField.class_name
        (valid_taxonomy db p TaxField.phylum k TaxField.kingdom) TaxField.phylum = c :=
      valid_taxonomy_not_truthy (valid_taxonomy_falsy hp)
    simp only [get_queryset, hcls1, hcls2, mem_order_by_name] at ho
    rw [eq_stage_truthy hc] at ho
    have h3 := (List.mem_filter.mp ho).2
    simpa [Organism.field] using h3

/-- Witness for the C4 theorem on a concrete two-row Organism table:
a phylum belonging to a different kingdom is dropped, and a phylum
belonging to the selected kingdom is enforced on a member of the result. -/
theorem C4_witness :
    (get_queryset
        [⟨"Homo sapiens", some "Human", some "Animalia", some "Chordata", some "Mammalia", none⟩,
         ⟨"Zea mays", some "Maize", some "Plantae", some "Streptophyta", none, none⟩]
        "" (some "Animalia") (some "Streptophyta") none =
      get_queryset
        [⟨"Homo sapiens", some "Human", some "Animalia", some "Chordata", some "Mammalia", none⟩,
         ⟨"Zea mays", some "Maize", some "Plantae", some "Streptophyta", none, none⟩]
        "" (some "Animalia") none none) ∧
    (get_queryset
        [⟨"Homo sapiens", some "Human", some "Animalia", some "Chordata", some "Mammalia", none⟩,
         ⟨"Zea mays", some "Maize", some "Plantae", some "Streptophyta", none, none⟩]
        "" (some "Animalia") (some "Chordata") (some "Insecta") =
      get_queryset
        [⟨"Homo sapiens", some "Human", some "Animalia", some "Chordata", some "Mammalia", none⟩,
         ⟨"Zea mays", some "Maize", some "Plantae", some "Streptophyta", none, none⟩]
        "" (some "Animalia") (some "Chordata") none) ∧
    (Organism.mk "Homo sapiens" (some "Human") (some "Animalia") (some "Chordata")
        (some "Mammalia") none).phylum = some "Chordata" ∧
    (Organism.mk "Homo sapiens" (some "Human") (some "Animalia") (some "Chordata")
        (some "Mammalia") none).class_name = some "Mammalia" :=
  ⟨(C4_hierarchical_taxonomy_filter _ "" (some "Animalia") (some "Streptophyta") none).1
      (by decide) (by decide),
   (C4_hierarchical_taxonomy_filter
        [⟨"Homo sapiens", some "Human", some "Animalia", some "Chordata", some "Mammalia", none⟩,
         ⟨"Zea mays", some "Maize", some "Plantae", some "Streptophyta", none, none⟩]
        "" (some "Animalia") (some "Chordata") (some "Insecta")).2.2.2.1
      (by decide) (by decide) (by decide) (by decide),
   (C4_hierarchical_taxonomy_filter
        [⟨"Homo sapiens", some "Human", some "Animalia", some "Chordata", some "Mammalia", none⟩,
         ⟨"Zea mays", some "Maize", some "Plantae", some "Streptophyta", none, none⟩]
        "" (some "Animalia") (some "Chordata") none).2.2.2.2.1
      (by decide) (by decide) (by decide) _ (by decide),
   (C4_hierarchical_taxonomy_filter
        [⟨"Homo sapiens", some "Human", some "Animalia", some "Chordata", some "Mammalia", none⟩,
         ⟨"Zea mays", some "Maize", some "Plantae", some "Streptophyta", none, none⟩]
        "" (some "Animalia") (some "Chordata") (some "Mammalia")).2.2.2.2.2.1
      (by decide) (by decide) (by decide) (by decide) (by decide) (by decide) _ (by decide)⟩

theorem crossref_result_doi {doi : String} {m : CrossRefMessage} {r : RefInfo}
    (h : crossref_result doi m = Except.ok r) : r.doi = doi := by
  unfold crossref_result at h
  repeat' split at h
  all_goals cases h
  all_goals rfl

/-- Claim C5: get_reference_info_from_doi is total over every fetch
outcome: it either returns the result dictionary of a successful lookup, a
record that by construction carries the title, authors, journal and year
fields and whose doi field is the queried DOI, or it returns None together
with exactly one logged error line; no exception propagates to the
caller. -/
theorem C5_get_reference_info_total (doi : String) (outcome : FetchOutcome) :
    (∃ m r, outcome = FetchOutcome.success m ∧ crossref_result doi m = Except.ok r ∧
      get_reference_info_from_doi doi outcome = (some r, []) ∧ r.doi = doi) ∨
    (∃ log, get_reference_info_from_doi doi outcome = (none, [log])) := by
  cases outcome with
  | httpError e => exact Or.inr ⟨_, rfl⟩
  | otherError e => exact Or.inr ⟨_, rfl⟩
  | success m =>
      cases hr : crossref_result doi m with
      | ok r =>
          refine Or.inl ⟨m, r, rfl, hr, ?_, crossref_result_doi hr⟩
          simp [get_reference_info_from_doi, hr]
      | error e =>
          exact Or.inr ⟨"Error when fetching DOI " ++ doi ++ ": " ++ e,
            by simp [get_reference_info_from_doi, hr]⟩

/-- Claim C6: organism resolution raises the search ValueError when the
taxonomy search returns no candidate ids, raises the no-exact-match
ValueError when no fetched record carries the queried name as scientific
name or synonym (case-insensitively), and succeeds without raising and
without discarding the lookup when a matching record exists. -/
theorem C6_organism_resolution (esearch : Option (List String))
    (efetch : String → List TaxRecord) (name : String)
    (organisms : List OrganismData) :
    (esearch = some [] →
      get_or_create_organism esearch efetch name organisms =
        Except.error (ResolveError.searchError name)) ∧
    (∀ ids, esearch = some ids → ids ≠ [] →
      (∀ tid ∈ ids, ∀ r ∈ efetch tid, rec_matches name r = false) →
      get_or_create_organism esearch efetch name organisms =
        Except.error (ResolveError.noExactMatch name)) ∧
    (∀ ids, esearch = some ids →
      (∃ tid ∈ ids, ∃ r ∈ efetch tid, rec_matches name r = true) →
      (get_or_create_organism esearch efetch name organisms).isOk = true) := by
  refine ⟨?_, ?_, ?_⟩
  · rintro rfl
    simp [get_or_create_organism, find_organism_data, get_organism_NCBI_id]
  · rintro ids rfl hne hnomatch
    have hfind : (ids.flatMap (fun tid => (efetch tid).map (fun r => (tid, r)))).find?
        (fun pr => rec_matches name pr.2) = none := by
      rw [List.find?_eq_none]
      intro x hmem
      rw [List.mem_flatMap] at hmem
      obtain ⟨t, ht, hx⟩ := hmem
      rw [List.mem_map] at hx
      obtain ⟨r2, hr2, rfl⟩ := hx
      simp [hnomatch t ht r2 hr2]
    have hempty : ids.isEmpty = false := by
      cases ids with
      | nil => exact absurd rfl hne
      | cons a l => rfl
    simp [get_or_create_organism, find_organism_data, get_organism_NCBI_id, hempty, hfind]
  · rintro ids rfl hex
    obtain ⟨tid, htid, r, hr, hmatch⟩ := hex
    have hempty : ids.isEmpty = false := by
      cases ids with
      | nil => simp at htid
      | cons a l => rfl
    have hsome : ((ids.flatMap (fun tid => (efetch tid).map (fun r => (tid, r)))).find?
        (fun pr => rec_matches name pr.2)).isSome = true := by
      rw [List.find?_isSome]
      exact ⟨(tid, r), List.mem_flatMap.mpr ⟨tid, htid, List.mem_map.mpr ⟨r, hr, rfl⟩⟩, hmatch⟩
    obtain ⟨pr, hpr⟩ := Option.isSome_iff_exists.mp hsome
    have hres : get_or_create_organism (some ids) efetch name organisms =
        match organisms.find?
            (fun o => o.scientific_name == (organism_data_of name pr.1 pr.2).scientific_name) with
        | some o => Except.ok (o, false, organisms)
        | none =>
            Except.ok (organism_data_of name pr.1 pr.2, true,
              organisms ++ [organism_data_of name pr.1 pr.2]) := by
      simp [get_or_create_organism, find_organism_data, get_organism_NCBI_id, hempty, hpr]
    rw [hres]
    split <;> rfl

/-- Witness for C6: an empty candidate list raises the search error; a
matching record resolves successfully; a sole non-matching record raises
the no-exact-match error. -/
theorem C6_witness :
    (get_or_create_organism (some []) (fun _ => []) "Homo sapiens" [] =
      Except.error (ResolveError.searchError "Homo sapiens")) ∧
    (get_or_create_organism (some ["9606"])
        (fun _ => [⟨"Homo sapiens", [], some "human", [("kingdom", "Metazoa")]⟩])
        "Homo sapiens" []).isOk = true ∧
    (get_or_create_organism (some ["10090"])
        (fun _ => [⟨"Mus musculus", ["house mouse"], none, []⟩])
        "Homo sapiens" [] =
      Except.error (ResolveError.noExactMatch "Homo sapiens")) :=
  ⟨(C6_organism_resolution (some []) (fun _ => []) "Homo sapiens" []).1 rfl,
   (C6_organism_resolution (some ["9606"])
        (fun _ => [⟨"Homo sapiens", [], some "human", [("kingdom", "Metazoa")]⟩])
        "Homo sapiens" []).2.2 ["9606"] rfl (by decide),
   (C6_organism_resolution (some ["10090"])
        (fun _ => [⟨"Mus musculus", ["house mouse"], none, []⟩])
        "Homo sapiens" []).2.1 ["10090"] rfl (by decide) (by decide)⟩

/-- Claim C8 (counterexample): a Reference of the current schema (which
has no URL column) with database PubMed and accession 123456 formats by
default as PubMed: 123456, not as Reference: 123456, and its extended
formatting is a three-newline detail string rather than a two-line one. -/
theorem C8_counterexample :
    reference_format_default
        ⟨some ⟨"PubMed", some "https://pubmed.ncbi.nlm.nih.gov/\x7bid\x7d/", none⟩,
         some "123456"⟩ ≠ "Reference: 123456" ∧
    reference_format_default
        ⟨some ⟨"PubMed", some "https://pubmed.ncbi.nlm.nih.gov/\x7bid\x7d/", none⟩,
         some "123456"⟩ = "PubMed: 123456" ∧
    reference_format_all
        ⟨some ⟨"PubMed", some "https://pubmed.ncbi.nlm.nih.gov/\x7bid\x7d/", none⟩,
         some "123456"⟩ =
      Except.ok
        "Database: PubMed\n\tAccession: 123456\n\tURL: https://pubmed.ncbi.nlm.nih.gov/123456/\n" ∧
    "Database: PubMed\n\tAccession: 123456\n\tURL: https://pubmed.ncbi.nlm.nih.gov/123456/\n".data.count
        '\n' = 3 :=
  ⟨by decide, by decide, rfl, by decide⟩

/-- Claim C8 (amended): for a Reference whose database row and accession
are present and the accession is non-empty, default formatting yields the
database string followed by the accession, and extended formatting yields
the three-line detail string with the accession substituted into the URL
pattern. -/
theorem C8_reference_format_spec (name pattern acc : String) (hacc : acc ≠ "") :
    reference_format_default ⟨some ⟨name, some pattern, none⟩, some acc⟩ =
      database_str ⟨name, some pattern, none⟩ ++ ": " ++ acc ∧
    reference_format_all ⟨some ⟨name, some pattern, none⟩, some acc⟩ =
      Except.ok ("Database: " ++ name ++ "\n\tAccession: " ++ acc ++ "\n\tURL: " ++
        String.mk (replaceChars "\x7bid\x7d".data acc.data pattern.data) ++ "\n") := by
  constructor
  · simp [reference_format_default, database_fstr, pyOrStr, hacc]
  · simp [reference_format_all, pyOrStr, hacc]

/-- Witness for the amended C8 theorem at a concrete database row,
pattern and accession. -/
theorem C8_witness :
    reference_format_default ⟨some ⟨"PubMed", some "p\x7bid\x7dq", none⟩, some "77"⟩ =
      database_str ⟨"PubMed", some "p\x7bid\x7dq", none⟩ ++ ": " ++ "77" ∧
    reference_format_all ⟨some ⟨"PubMed", some "p\x7bid\x7dq", none⟩, some "77"⟩ =
      Except.ok ("Database: " ++ "PubMed" ++ "\n\tAccession: " ++ "77" ++ "\n\tURL: " ++
        String.mk (replaceChars "\x7bid\x7d".data "77".data "p\x7bid\x7dq".data) ++ "\n") :=
  C8_reference_format_spec "PubMed" "p\x7bid\x7dq" "77" (by decide)

theorem find?_append_of_some {α : Type} {p : α → Bool} {l t : List α} {x : α}
    (h : l.find? p = some x) : (l ++ t).find? p = some x := by
  rw [List.find?_append, h]
  rfl

theorem find?_append_isSome {α : Type} {p : α → Bool} {l t : List α}
    (h : (l.find? p).isSome = true) : ((l ++ t).find? p).isSome = true := by
  obtain ⟨x, hx⟩ := Option.isSome_iff_exists.mp h
  rw [find?_append_of_some hx]
  rfl

theorem DB.Ext.rfl (db : DB) : DB.Ext db db :=
  ⟨by rfl, ⟨[], by simp⟩, ⟨[], by simp⟩, ⟨[], by simp⟩, ⟨[], by simp⟩⟩

theorem DB.Ext.trans {a b c : DB} (h1 : DB.Ext a b) (h2 : DB.Ext b c) : DB.Ext a c := by
  obtain ⟨hd1, ⟨t1, hp1⟩, ⟨u1, hr1⟩, ⟨v1, hl1⟩, ⟨w1, hq1⟩⟩ := h1
  obtain ⟨hd2, ⟨t2, hp2⟩, ⟨u2, hr2⟩, ⟨v2, hl2⟩, ⟨w2, hq2⟩⟩ := h2
  exact ⟨hd2.trans hd1,
    ⟨t1 ++ t2, by rw [hp2, hp1, List.append_assoc]⟩,
    ⟨u1 ++ u2, by rw [hr2, hr1, List.append_assoc]⟩,
    ⟨v1 ++ v2, by rw [hl2, hl1, List.append_assoc]⟩,
    ⟨w1 ++ w2, by rw [hq2, hq1, List.append_assoc]⟩⟩

theorem save_aa_seq (md5 : String → String) (r : PeptideRow) :
    (PeptideRow.save md5 r).aa_seq = r.aa_seq := by
  unfold PeptideRow.save
  split <;> rfl

theorem peptide_goc_spec (md5 : String → String) (db : DB) (s : String) :
    (peptide_get_or_create md5 db s).2.2.peptides.find? (peptide_lookup s) =
      some (peptide_get_or_create md5 db s).1 ∧
    DB.Ext db (peptide_get_or_create md5 db s).2.2 ∧
    (peptide_get_or_create md5 db s).2.2.ref_rows = db.ref_rows ∧
    (peptide_get_or_create md5 db s).2.2.peptide_refs = db.peptide_refs ∧
    (peptide_get_or_create md5 db s).2.2.proteins = db.proteins ∧
    (peptide_get_or_create md5 db s).2.2.databases = db.databases := by
  cases h : db.peptides.find? (peptide_lookup s) with
  | some r =>
      simp only [peptide_get_or_create, h]
      exact ⟨trivial, DB.Ext.rfl db, trivial, trivial, trivial, trivial⟩
  | none =>
      simp only [peptide_get_or_create, h]
      refine ⟨?_, ⟨by rfl, ⟨_, by rfl⟩, ⟨[], by simp⟩, ⟨[], by simp⟩, ⟨[], by simp⟩⟩,
        trivial, trivial, trivial, trivial⟩
      rw [List.find?_append, h]
      simp [List.find?_cons, peptide_lookup, save_aa_seq]

theorem reference_goc_spec (db : DB) (n e : String) :
    (reference_get_or_create db n e).2.2.ref_rows.find? (ref_lookup n e) =
      some (reference_get_or_create db n e).1 ∧
    DB.Ext db (reference_get_or_create db n e).2.2 ∧
    (reference_get_or_create db n e).2.2.peptides = db.peptides ∧
    (reference_get_or_create db n e).2.2.peptide_refs = db.peptide_refs ∧
    (reference_get_or_create db n e).2.2.proteins = db.proteins ∧
    (reference_get_or_create db n e).2.2.databases = db.databases := by
  cases h : db.ref_rows.find? (ref_lookup n e) with
  | some r =>
      simp only [reference_get_or_create, h]
      exact ⟨trivial, DB.Ext.rfl db, trivial, trivial, trivial, trivial⟩
  | none =>
      simp only [reference_get_or_create, h]
      refine ⟨?_, ⟨by rfl, ⟨[], by simp⟩, ⟨_, by rfl⟩, ⟨[], by simp⟩, ⟨[], by simp⟩⟩,
        trivial, trivial, trivial, trivial⟩
      rw [List.find?_append, h]
      simp [List.find?_cons, ref_lookup]

theorem add_link_spec (db : DB) (p r : Nat) :
    (p, r) ∈ (add_link db p r).peptide_refs ∧
    DB.Ext db (add_link db p r) ∧
    (add_link db p r).ref_rows = db.ref_rows ∧
    (add_link db p r).peptides = db.peptides ∧
    (add_link db p r).proteins = db.proteins ∧
    (add_link db p r).databases = db.databases := by
  unfold add_link
  by_cases h : (p, r) ∈ db.peptide_refs
  · rw [if_pos h]
    exact ⟨h, DB.Ext.rfl db, by rfl, by rfl, by rfl, by rfl⟩
  · rw [if_neg h]
    refine ⟨?_, ⟨by rfl, ⟨[], by simp⟩, ⟨[], by simp⟩, ⟨_, by rfl⟩, ⟨[], by simp⟩⟩,
      by rfl, by rfl, by rfl, by rfl⟩
    simp

theorem valid_ref_of_eq_databases {db db' : DB} {ref : RefMeta}
    (h : db'.databases = db.databases) (hv : valid_ref db' ref) : valid_ref db ref := by
  obtain ⟨h1, h2, h3⟩ := hv
  rw [h] at h3
  exact ⟨h1, h2, h3⟩

theorem ref_established_mono {pep : Nat} {ref : RefMeta} {db db' : DB}
    (h : DB.Ext db db') (he : ref_established pep ref db) :
    ref_established pep ref db' := by
  obtain ⟨r, hfind, hlink⟩ := he
  obtain ⟨_, _, ⟨u, hu⟩, ⟨v, hv⟩, _⟩ := h
  refine ⟨r, ?_, ?_⟩
  · rw [hu]
    exact find?_append_of_some hfind
  · rw [hv]
    exact List.mem_append_left _ hlink

theorem ref_established_frame {pep : Nat} {ref : RefMeta} {db db' : DB}
    (hr : db'.ref_rows = db.ref_rows) (hl : db'.peptide_refs = db.peptide_refs)
    (he : ref_established pep ref db) : ref_established pep ref db' := by
  obtain ⟨r, hfind, hlink⟩ := he
  exact ⟨r, by rw [hr]; exact hfind, by rw [hl]; exact hlink⟩

theorem add_reference_step_spec (db : DB) (pep : Nat) (ref : RefMeta) :
    DB.Ext db (add_reference_step db pep ref) ∧
    (add_reference_step db pep ref).peptides = db.peptides ∧
    (add_reference_step db pep ref).proteins = db.proteins ∧
    (add_reference_step db pep ref).databases = db.databases ∧
    (valid_ref db ref → ref_established pep ref (add_reference_step db pep ref)) := by
  unfold add_reference_step
  by_cases ht : (pyTruthy ref.database && pyTruthy ref.id) = true
  · rw [if_pos ht]
    by_cases hd : ref.database.getD "" ∈ db.databases
    · rw [if_pos hd]
      obtain ⟨gfind, gext, gpep, glink, gprot, gdb⟩ :=
        reference_goc_spec db (ref.database.getD "") (ref.id.getD "")
      obtain ⟨lmem, lext, lref, lpep, lprot, ldb⟩ :=
        add_link_spec (reference_get_or_create db (ref.database.getD "") (ref.id.getD "")).2.2
          pep (reference_get_or_create db (ref.database.getD "") (ref.id.getD "")).1.id
      refine ⟨gext.trans lext, by rw [lpep, gpep], by rw [lprot, gprot], by rw [ldb, gdb], ?_⟩
      intro _
      exact ⟨(reference_get_or_create db (ref.database.getD "") (ref.id.getD "")).1,
        by rw [lref]; exact gfind, lmem⟩
    · rw [if_neg hd]
      refine ⟨DB.Ext.rfl db, rfl, rfl, rfl, ?_⟩
      intro hv
      exact absurd hv.2.2 hd
  · rw [if_neg ht]
    refine ⟨DB.Ext.rfl db, rfl, rfl, rfl, ?_⟩
    intro hv
    rw [hv.1, hv.2.1] at ht
    exact absurd rfl ht

theorem add_references_spec (refs : List RefMeta) : ∀ (db : DB) (pep : Nat),
    DB.Ext db (add_references db pep refs) ∧
    (add_references db pep refs).peptides = db.peptides ∧
    (add_references db pep refs).proteins = db.proteins ∧
    (add_references db pep refs).databases = db.databases ∧
    (∀ ref ∈ refs, valid_ref db ref → ref_established pep ref (add_references db pep refs)) := by
  induction refs with
  | nil =>
      intro db pep
      exact ⟨DB.Ext.rfl db, rfl, rfl, rfl, by intro ref h; exact absurd h (List.not_mem_nil ref)⟩
  | cons r rs ih =>
      intro db pep
      have hfold : add_references db pep (r :: rs) =
          add_references (add_reference_step db pep r) pep rs := rfl
      obtain ⟨sext, spep, sprot, sdb, sest⟩ := add_reference_step_spec db pep r
      obtain ⟨iext, ipep, iprot, idb, iest⟩ := ih (add_reference_step db pep r) pep
      rw [hfold]
      refine ⟨sext.trans iext, by rw [ipep, spep], by rw [iprot, sprot], by rw [idb, sdb], ?_⟩
      intro ref hmem hv
      rcases List.mem_cons.mp hmem with hhead | htail
      · subst hhead
        exact ref_established_mono iext (sest hv)
      · exact iest ref htail (valid_ref_of_eq_databases sdb.symm hv)

theorem sequence_stage_spec (md5 : String → String) (db : DB) (m : ProteinMeta) :
    DB.Ext db (sequence_stage md5 db m).2 ∧
    (sequence_stage md5 db m).2.proteins = db.proteins ∧
    (sequence_stage md5 db m).2.databases = db.databases ∧
    ∃ p, (sequence_stage md5 db m).2.peptides.find? (peptide_lookup (m.sequence.getD "")) =
        some p ∧
      p.id = (sequence_stage md5 db m).1 ∧
      (∀ ref ∈ m.refs, valid_ref db ref →
        ref_established p.id ref (sequence_stage md5 db m).2) := by
  obtain ⟨gfind, gext, gref, glink, gprot, gdb⟩ :=
    peptide_goc_spec md5 db (m.sequence.getD "")
  obtain ⟨aext, apep, aprot, adb, aest⟩ :=
    add_references_spec m.refs (peptide_get_or_create md5 db (m.sequence.getD "")).2.2
      (peptide_get_or_create md5 db (m.sequence.getD "")).1.id
  refine ⟨gext.trans aext, by rw [show (sequence_stage md5 db m).2 =
      add_references (peptide_get_or_create md5 db (m.sequence.getD "")).2.2
        (peptide_get_or_create md5 db (m.sequence.getD "")).1.id m.refs from rfl,
      aprot, gprot], ?_, ?_⟩
  · rw [show (sequence_stage md5 db m).2 =
      add_references (peptide_get_or_create md5 db (m.sequence.getD "")).2.2
        (peptide_get_or_create md5 db (m.sequence.getD "")).1.id m.refs from rfl, adb, gdb]
  · refine ⟨(peptide_get_or_create md5 db (m.sequence.getD "")).1, ?_, rfl, ?_⟩
    · rw [show (sequence_stage md5 db m).2 =
        add_references (peptide_get_or_create md5 db (m.sequence.getD "")).2.2
          (peptide_get_or_create md5 db (m.sequence.getD "")).1.id m.refs from rfl, apep]
      exact gfind
    · intro ref hmem hv
      exact aest ref hmem (valid_ref_of_eq_databases gdb.symm hv)

theorem protein_goc_spec (db : DB) (sid : Nat) (pn gn pf org acc : Option String) :
    DB.Ext db (protein_get_or_create db sid pn gn pf org acc).2 ∧
    (protein_get_or_create db sid pn gn pf org acc).2.peptides = db.peptides ∧
    (protein_get_or_create db sid pn gn pf org acc).2.ref_rows = db.ref_rows ∧
    (protein_get_or_create db sid pn gn pf org acc).2.peptide_refs = db.peptide_refs ∧
    (protein_get_or_create db sid pn gn pf org acc).2.databases = db.databases ∧
    ((protein_get_or_create db sid pn gn pf org acc).2.proteins.find?
      (protein_match sid pn gn pf org acc)).isSome = true ∧
    (∃ t, (protein_get_or_create db sid pn gn pf org acc).2.proteins = db.proteins ++ t ∧
      ∀ x ∈ t, x.organism = org) := by
  cases h : db.proteins.find? (protein_match sid pn gn pf org acc) with
  | some pr =>
      simp only [protein_get_or_create, h]
      refine ⟨DB.Ext.rfl db, trivial, trivial, trivial, trivial, by simp [h],
        ⟨[], by simp⟩⟩
  | none =>
      simp only [protein_get_or_create, h]
      refine ⟨⟨by rfl, ⟨[], by simp⟩, ⟨[], by simp⟩, ⟨[], by simp⟩, ⟨_, by rfl⟩⟩,
        trivial, trivial, trivial, trivial, ?_, ⟨_, by rfl, ?_⟩⟩
      · rw [List.find?_append, h]
        simp [List.find?_cons, protein_match]
      · intro x hx
        rw [List.mem_singleton] at hx
        subst hx
        rfl

theorem record_handled_mono {org : Option String} {m : ProteinMeta} {db db' : DB}
    (h : DB.Ext db db') (hr : record_handled org m db) : record_handled org m db' := by
  intro hseq
  obtain ⟨p, hfind, hrefs, hprot⟩ := hr hseq
  obtain ⟨t, hp⟩ := h.2.1
  obtain ⟨w, hq⟩ := h.2.2.2.2
  refine ⟨p, ?_, ?_, ?_⟩
  · rw [hp]
    exact find?_append_of_some hfind
  · intro ref hmem hv
    exact ref_established_mono h (hrefs ref hmem (valid_ref_of_eq_databases h.1 hv))
  · intro hfail
    rw [hq]
    exact find?_append_isSome (hprot hfail)

theorem bool_eq_false {b : Bool} (h : ¬ b = true) : b = false := by
  cases hb : b
  · rfl
  · exact absurd hb h

theorem process_record_spec (md5 : String → String) (org : Option String) (db : DB)
    (m : ProteinMeta) :
    DB.Ext db (process_record md5 org db m).2.2 ∧
    record_handled org m (process_record md5 org db m).2.2 := by
  by_cases hseq : pyTruthy m.sequence = true
  · obtain ⟨sext, sprot, sdb, p, pfind, pid, prefs⟩ := sequence_stage_spec md5 db m
    by_cases hfail : m.creation_fails = true
    · have hstate : (process_record md5 org db m).2.2 = (sequence_stage md5 db m).2 := by
        simp [process_record, hseq, hfail]
      rw [hstate]
      refine ⟨sext, ?_⟩
      intro _
      refine ⟨p, pfind, ?_, ?_⟩
      · intro ref hmem hv
        exact prefs ref hmem (valid_ref_of_eq_databases sdb hv)
      · intro hf
        simp [hfail] at hf
    · have hfail' : m.creation_fails = false := bool_eq_false hfail
      have hstate : (process_record md5 org db m).2.2 =
          (protein_get_or_create (sequence_stage md5 db m).2 (sequence_stage md5 db m).1
            m.protein_name m.gene_name m.protein_function org m.accession).2 := by
        simp [process_record, hseq, hfail']
      rw [hstate]
      obtain ⟨gext, gpep, gref, glink, gdbs, gfound, gt⟩ :=
        protein_goc_spec (sequence_stage md5 db m).2 (sequence_stage md5 db m).1
          m.protein_name m.gene_name m.protein_function org m.accession
      refine ⟨sext.trans gext, ?_⟩
      intro _
      refine ⟨p, ?_, ?_, ?_⟩
      · rw [gpep]
        exact pfind
      · intro ref hmem hv
        exact ref_established_frame gref glink
          (prefs ref hmem (valid_ref_of_eq_databases (gdbs.trans sdb) hv))
      · intro _
        rw [pid]
        exact gfound
  · have hseq' : pyTruthy m.sequence = false := bool_eq_false hseq
    have hstate : (process_record md5 org db m).2.2 = db := by
      simp [process_record, hseq']
    rw [hstate]
    refine ⟨DB.Ext.rfl db, ?_⟩
    intro hc
    rw [hseq'] at hc
    cases hc

theorem create_ext (md5 : String → String) (org : Option String) :
    ∀ (metas : List ProteinMeta) (db : DB),
      DB.Ext db (create_proteins_from_metadata md5 metas org db).2.2 := by
  intro metas
  induction metas with
  | nil => intro db; exact DB.Ext.rfl db
  | cons m rest ih =>
      intro db
      have hc : (create_proteins_from_metadata md5 (m :: rest) org db).2.2 =
          (create_proteins_from_metadata md5 rest org (process_record md5 org db m).2.2).2.2 :=
        rfl
      rw [hc]
      exact (process_record_spec md5 org db m).1.trans (ih (process_record md5 org db m).2.2)

theorem create_establishes (md5 : String → String) (org : Option String) :
    ∀ (metas : List ProteinMeta) (db : DB) (m : ProteinMeta), m ∈ metas →
      record_handled org m (create_proteins_from_metadata md5 metas org db).2.2 := by
  intro metas
  induction metas with
  | nil => intro db m hm; exact absurd hm (List.not_mem_nil m)
  | cons m0 rest ih =>
      intro db m hm
      have hc : (create_proteins_from_metadata md5 (m0 :: rest) org db).2.2 =
          (create_proteins_from_metadata md5 rest org (process_record md5 org db m0).2.2).2.2 :=
        rfl
      rw [hc]
      rcases List.mem_cons.mp hm with h0 | htail
      · subst h0
        exact record_handled_mono (create_ext md5 org rest (process_record md5 org db m).2.2)
          (process_record_spec md5 org db m).2
      · exact ih (process_record md5 org db m0).2.2 m htail

theorem add_reference_step_noop {db : DB} {pep : Nat} {ref : RefMeta}
    (h : valid_ref db ref → ref_established pep ref db) :
    add_reference_step db pep ref = db := by
  unfold add_reference_step
  by_cases ht : (pyTruthy ref.database && pyTruthy ref.id) = true
  · rw [if_pos ht]
    by_cases hd : ref.database.getD "" ∈ db.databases
    · rw [if_pos hd]
      have hv : valid_ref db ref :=
        ⟨((Bool.and_eq_true _ _).mp ht).1, ((Bool.and_eq_true _ _).mp ht).2, hd⟩
      obtain ⟨r, hfind, hlink⟩ := h hv
      have hg : reference_get_or_create db (ref.database.getD "") (ref.id.getD "") =
          (r, false, db) := by
        simp [reference_get_or_create, hfind]
      rw [hg]
      simp [add_link, hlink]
    · rw [if_neg hd]
  · rw [if_neg ht]

theorem add_references_noop : ∀ (refs : List RefMeta) (db : DB) (pep : Nat),
    (∀ ref ∈ refs, valid_ref db ref → ref_established pep ref db) →
    add_references db pep refs = db := by
  intro refs
  induction refs with
  | nil => intro db pep _; rfl
  | cons r rs ih =>
      intro db pep h
      have h0 : add_reference_step db pep r = db :=
        add_reference_step_noop (h r (List.mem_cons_self r rs))
      have hfold : add_references db pep (r :: rs) =
          add_references (add_reference_step db pep r) pep rs := rfl
      rw [hfold, h0]
      exact ih db pep (fun ref hm => h ref (List.mem_cons_of_mem r hm))

theorem process_record_noop {md5 : String → String} {org : Option String} {db : DB}
    {m : ProteinMeta} (h : record_handled org m db) :
    (process_record md5 org db m).2.2 = db := by
  by_cases hseq : pyTruthy m.sequence = true
  · obtain ⟨p, hfind, hrefs, hprot⟩ := h hseq
    have hg : peptide_get_or_create md5 db (m.sequence.getD "") = (p, false, db) := by
      simp [peptide_get_or_create, hfind]
    have hs : sequence_stage md5 db m = (p.id, db) := by
      simp [sequence_stage, hg, add_references_noop m.refs db p.id hrefs]
    by_cases hfail : m.creation_fails = true
    · simp [process_record, hseq, hfail, hs]
    · have hfail' : m.creation_fails = false := bool_eq_false hfail
      obtain ⟨pr, hpr⟩ := Option.isSome_iff_exists.mp (hprot hfail')
      have hgp : protein_get_or_create db p.id m.protein_name m.gene_name
          m.protein_function org m.accession = ((pr, false), db) := by
        simp [protein_get_or_create, hpr]
      simp [process_record, hseq, hfail', hs, hgp]
  · have hseq' : pyTruthy m.sequence = false := bool_eq_false hseq
    simp [process_record, hseq']

theorem create_noop (md5 : String → String) (org : Option String) :
    ∀ (metas : List ProteinMeta) (db : DB),
      (∀ m ∈ metas, record_handled org m db) →
      (create_proteins_from_metadata md5 metas org db).2.2 = db := by
  intro metas
  induction metas with
  | nil => intro db _; rfl
  | cons m rest ih =>
      intro db h
      have hc : (create_proteins_from_metadata md5 (m :: rest) org db).2.2 =
          (create_proteins_from_metadata md5 rest org (process_record md5 org db m).2.2).2.2 :=
        rfl
      rw [hc, process_record_noop (h m (List.mem_cons_self m rest))]
      exact ih db (fun m' hm' => h m' (List.mem_cons_of_mem m hm'))

theorem peptide_goc_unique {md5 : String → String} {db : DB} {s : String}
    (h : peptides_unique db) : peptides_unique (peptide_get_or_create md5 db s).2.2 := by
  cases hf : db.peptides.find? (peptide_lookup s) with
  | some r => simpa [peptides_unique, peptide_get_or_create, hf] using h
  | none =>
      have hall := List.find?_eq_none.mp hf
      simp only [peptides_unique, peptide_get_or_create, hf]
      rw [List.pairwise_append]
      refine ⟨h, by simp, ?_⟩
      intro x hx y hy
      rw [List.mem_singleton] at hy
      subst hy
      rw [save_aa_seq]
      intro hcontra
      exact hall x hx (by simp [peptide_lookup, hcontra])

theorem protein_match_eq_key {sid : Nat} {pn gn pf org acc : Option String} {x : ProteinRow}
    (h : protein_key x = (sid, pn, gn, pf, org, acc)) :
    protein_match sid pn gn pf org acc x = true := by
  simp only [protein_key, Prod.mk.injEq] at h
  simp [protein_match, h.1, h.2.1, h.2.2.1, h.2.2.2.1, h.2.2.2.2.1, h.2.2.2.2.2]

theorem protein_goc_unique {db : DB} {sid : Nat} {pn gn pf org acc : Option String}
    (h : proteins_unique db) :
    proteins_unique (protein_get_or_create db sid pn gn pf org acc).2 := by
  cases hf : db.proteins.find? (protein_match sid pn gn pf org acc) with
  | some r => simpa [proteins_unique, protein_get_or_create, hf] using h
  | none =>
      have hall := List.find?_eq_none.mp hf
      simp only [proteins_unique, protein_get_or_create, hf]
      rw [List.pairwise_append]
      refine ⟨h, by simp, ?_⟩
      intro x hx y hy
      rw [List.mem_singleton] at hy
      subst hy
      intro hcontra
      exact hall x hx (protein_match_eq_key (hcontra.trans (by simp [protein_key])))

theorem process_record_unique (md5 : String → String) (org : Option String) (db : DB)
    (m : ProteinMeta) (h1 : peptides_unique db) (h2 : proteins_unique db) :
    peptides_unique (process_record md5 org db m).2.2 ∧
    proteins_unique (process_record md5 org db m).2.2 := by
  by_cases hseq : pyTruthy m.sequence = true
  · have hsp : (sequence_stage md5 db m).2.peptides =
        (peptide_get_or_create md5 db (m.sequence.getD "")).2.2.peptides :=
      (add_references_spec m.refs (peptide_get_or_create md5 db (m.sequence.getD "")).2.2
        (peptide_get_or_create md5 db (m.sequence.getD "")).1.id).2.1
    have hspr : (sequence_stage md5 db m).2.proteins = db.proteins :=
      (sequence_stage_spec md5 db m).2.1
    have hu1 : peptides_unique (sequence_stage md5 db m).2 := by
      unfold peptides_unique
      rw [hsp]
      exact peptide_goc_unique h1
    have hu2 : proteins_unique (sequence_stage md5 db m).2 := by
      unfold proteins_unique
      rw [hspr]
      exact h2
    by_cases hfail : m.creation_fails = true
    · have hstate : (process_record md5 org db m).2.2 = (sequence_stage md5 db m).2 := by
        simp [process_record, hseq, hfail]
      rw [hstate]
      exact ⟨hu1, hu2⟩
    · have hfail' : m.creation_fails = false := bool_eq_false hfail
      have hstate : (process_record md5 org db m).2.2 =
          (protein_get_or_create (sequence_stage md5 db m).2 (sequence_stage md5 db m).1
            m.protein_name m.gene_name m.protein_function org m.accession).2 := by
        simp [process_record, hseq, hfail']
      rw [hstate]
      constructor
      · unfold peptides_unique
        rw [(protein_goc_spec (sequence_stage md5 db m).2 (sequence_stage md5 db m).1
          m.protein_name m.gene_name m.protein_function org m.accession).2.1]
        exact hu1
      · exact protein_goc_unique hu2
  · have hseq' : pyTruthy m.sequence = false := bool_eq_false hseq
    have hstate : (process_record md5 org db m).2.2 = db := by
      simp [process_record, hseq']
    rw [hstate]
    exact ⟨h1, h2⟩

theorem create_unique (md5 : String → String) (org : Option String) :
    ∀ (metas : List ProteinMeta) (db : DB),
      peptides_unique db → proteins_unique db →
      peptides_unique (create_proteins_from_metadata md5 metas org db).2.2 ∧
      proteins_unique (create_proteins_from_metadata md5 metas org db).2.2 := by
  intro metas
  induction metas with
  | nil => intro db h1 h2; exact ⟨h1, h2⟩
  | cons m rest ih =>
      intro db h1 h2
      have hc : (create_proteins_from_metadata md5 (m :: rest) org db).2.2 =
          (create_proteins_from_metadata md5 rest org (process_record md5 org db m).2.2).2.2 :=
        rfl
      rw [hc]
      obtain ⟨hp1, hp2⟩ := process_record_unique md5 org db m h1 h2
      exact ih (process_record md5 org db m).2.2 hp1 hp2

/-- Claim C1: re-running the import persistence step on the same metadata
records for the same organism leaves the database state unchanged: every
get-or-create finds the row persisted by the first run (peptide rows by
exact sequence, protein rows by the full six-field lookup key), so no new
row is inserted; moreover a database state without duplicate sequences or
duplicate protein keys stays duplicate-free across a run, the state of
affairs the uniqueness constraints guard. -/
theorem C1_reimport_idempotent (md5 : String → String) (metas : List ProteinMeta)
    (org : Option String) (db : DB) :
    (create_proteins_from_metadata md5 metas org
        (create_proteins_from_metadata md5 metas org db).2.2).2.2 =
      (create_proteins_from_metadata md5 metas org db).2.2 ∧
    (peptides_unique db → proteins_unique db →
      peptides_unique (create_proteins_from_metadata md5 metas org db).2.2 ∧
      proteins_unique (create_proteins_from_metadata md5 metas org db).2.2) := by
  constructor
  · exact create_noop md5 org metas _
      (fun m hm => create_establishes md5 org metas db m hm)
  · intro h1 h2
    exact create_unique md5 org metas db h1 h2

/-- Witness for C1 on a one-record metadata list over a database holding
only the PubMed Database row: the second run leaves the state of the first
run unchanged and both uniqueness invariants hold afterwards. -/
theorem C1_witness :
    ((create_proteins_from_metadata (fun s => s)
        [⟨some "P68871", some "Hemoglobin subunit beta", some "HBB",
          some "oxygen transport", some "MVHLTPEEK", [⟨some "PubMed", some "123"⟩], false⟩]
        (some "Homo sapiens")
        (create_proteins_from_metadata (fun s => s)
          [⟨some "P68871", some "Hemoglobin subunit beta", some "HBB",
            some "oxygen transport", some "MVHLTPEEK", [⟨some "PubMed", some "123"⟩], false⟩]
          (some "Homo sapiens") ⟨["PubMed"], [], [], [], [], 0⟩).2.2).2.2 =
      (create_proteins_from_metadata (fun s => s)
        [⟨some "P68871", some "Hemoglobin subunit beta", some "HBB",
          some "oxygen transport", some "MVHLTPEEK", [⟨some "PubMed", some "123"⟩], false⟩]
        (some "Homo sapiens") ⟨["PubMed"], [], [], [], [], 0⟩).2.2) ∧
    (peptides_unique
        (create_proteins_from_metadata (fun s => s)
          [⟨some "P68871", some "Hemoglobin subunit beta", some "HBB",
            some "oxygen transport", some "MVHLTPEEK", [⟨some "PubMed", some "123"⟩], false⟩]
          (some "Homo sapiens") ⟨["PubMed"], [], [], [], [], 0⟩).2.2 ∧
      proteins_unique
        (create_proteins_from_metadata (fun s => s)
          [⟨some "P68871", some "Hemoglobin subunit beta", some "HBB",
            some "oxygen transport", some "MVHLTPEEK", [⟨some "PubMed", some "123"⟩], false⟩]
          (some "Homo sapiens") ⟨["PubMed"], [], [], [], [], 0⟩).2.2) :=
  ⟨(C1_reimport_idempotent (fun s => s)
      [⟨some "P68871", some "Hemoglobin subunit beta", some "HBB",
        some "oxygen transport", some "MVHLTPEEK", [⟨some "PubMed", some "123"⟩], false⟩]
      (some "Homo sapiens") ⟨["PubMed"], [], [], [], [], 0⟩).1,
   (C1_reimport_idempotent (fun s => s)
      [⟨some "P68871", some "Hemoglobin subunit beta", some "HBB",
        some "oxygen transport", some "MVHLTPEEK", [⟨some "PubMed", some "123"⟩], false⟩]
      (some "Homo sapiens") ⟨["PubMed"], [], [], [], [], 0⟩).2 List.Pairwise.nil
      List.Pairwise.nil⟩

theorem process_protein_rows (md5 : String → String) (org : Option String) (db : DB)
    (m : ProteinMeta) :
    ∀ x ∈ (process_record md5 org db m).2.2.proteins, x ∈ db.proteins ∨ x.organism = org := by
  by_cases hseq : pyTruthy m.sequence = true
  · have hspr : (sequence_stage md5 db m).2.proteins = db.proteins :=
      (sequence_stage_spec md5 db m).2.1
    by_cases hfail : m.creation_fails = true
    · have hstate : (process_record md5 org db m).2.2 = (sequence_stage md5 db m).2 := by
        simp [process_record, hseq, hfail]
      rw [hstate, hspr]
      intro x hx
      exact Or.inl hx
    · have hfail' : m.creation_fails = false := bool_eq_false hfail
      have hstate : (process_record md5 org db m).2.2 =
          (protein_get_or_create (sequence_stage md5 db m).2 (sequence_stage md5 db m).1
            m.protein_name m.gene_name m.protein_function org m.accession).2 := by
        simp [process_record, hseq, hfail']
      rw [hstate]
      obtain ⟨t, ht, horg⟩ := (protein_goc_spec (sequence_stage md5 db m).2
        (sequence_stage md5 db m).1 m.protein_name m.gene_name m.protein_function org
        m.accession).2.2.2.2.2.2
      rw [ht, hspr]
      intro x hx
      rcases List.mem_append.mp hx with hl | hr
      · exact Or.inl hl
      · exact Or.inr (horg x hr)
  · have hseq' : pyTruthy m.sequence = false := bool_eq_false hseq
    have hstate : (process_record md5 org db m).2.2 = db := by
      simp [process_record, hseq']
    rw [hstate]
    intro x hx
    exact Or.inl hx

/-- Claim C2 (counterexample): running the persistence step with no
organism on a record carrying a sequence persists a Protein row whose
organism column is None: nothing raises before the save, refuting the
claim that a Protein is never saved without an organism and a reference
attached (the Protein model moreover declares organism nullable and has no
reference column at all). -/
theorem C2_counterexample :
    ((create_proteins_from_metadata (fun _ => "h")
        [⟨some "P68871", some "Hemoglobin subunit beta", some "HBB", none,
          some "MVHLTPEEK", [], false⟩]
        none DB.empty).2.2.proteins.map (fun p => p.organism)) = [none] := by decide

/-- Claim C2 (amended): the Protein model performs no validation: every
protein row present after a run of the persistence step either predates
the run or carries exactly the organism argument that was passed, which
may be None; nothing raises before persistence and the current Protein
schema has no reference column. -/
theorem C2_protein_saved_without_validation (md5 : String → String)
    (metas : List ProteinMeta) (org : Option String) (db : DB) :
    ∀ p ∈ (create_proteins_from_metadata md5 metas org db).2.2.proteins,
      p ∈ db.proteins ∨ p.organism = org := by
  induction metas generalizing db with
  | nil => intro p hp; exact Or.inl hp
  | cons m rest ih =>
      intro p hp
      have hc : (create_proteins_from_metadata md5 (m :: rest) org db).2.2 =
          (create_proteins_from_metadata md5 rest org (process_record md5 org db m).2.2).2.2 :=
        rfl
      rw [hc] at hp
      rcases ih (process_record md5 org db m).2.2 p hp with hmem | horg
      · exact process_protein_rows md5 org db m p hmem
      · exact Or.inr horg

/-- Witness for the amended C2 theorem: the protein row persisted for a
one-record import into an empty database carries the passed organism. -/
theorem C2_witness :
    (⟨1, 0, some "Hemoglobin subunit beta", some "HBB", none, some "Homo sapiens",
        some "P68871"⟩ : ProteinRow) ∈ DB.empty.proteins ∨
    (⟨1, 0, some "Hemoglobin subunit beta", some "HBB", none, some "Homo sapiens",
        some "P68871"⟩ : ProteinRow).organism = some "Homo sapiens" :=
  C2_protein_saved_without_validation (fun _ => "h")
    [⟨some "P68871", some "Hemoglobin subunit beta", some "HBB", none,
      some "MVHLTPEEK", [], false⟩]
    (some "Homo sapiens") DB.empty _ (by decide)

/-- Claim C7: a metadata record with a falsy sequence is skipped, leaving
the batch exactly as if the record were absent; a record whose protein
creation raises contributes one caught-and-logged error line, no protein
row, and the remaining records of the batch are still processed from the
state left by its peptide-and-references stage. -/
theorem C7_per_record_error_handling (md5 : String → String) (m : ProteinMeta)
    (rest : List ProteinMeta) (org : Option String) (db : DB) :
    (pyTruthy m.sequence = false →
      create_proteins_from_metadata md5 (m :: rest) org db =
        create_proteins_from_metadata md5 rest org db) ∧
    (pyTruthy m.sequence = true → m.creation_fails = true →
      create_proteins_from_metadata md5 (m :: rest) org db =
        ((create_proteins_from_metadata md5 rest org (sequence_stage md5 db m).2).1,
         "protein creation failed" ::
           (create_proteins_from_metadata md5 rest org (sequence_stage md5 db m).2).2.1,
         (create_proteins_from_metadata md5 rest org (sequence_stage md5 db m).2).2.2) ∧
      (sequence_stage md5 db m).2.proteins = db.proteins) := by
  constructor
  · intro hseq
    have hp : process_record md5 org db m = ([], [], db) := by
      simp [process_record, hseq]
    simp [create_proteins_from_metadata, hp]
  · intro hseq hfail
    have hp : process_record md5 org db m =
        ([], ["protein creation failed"], (sequence_stage md5 db m).2) := by
      simp [process_record, hseq, hfail]
    refine ⟨?_, (sequence_stage_spec md5 db m).2.1⟩
    simp [create_proteins_from_metadata, hp]

/-- Witness for C7: a record with no sequence is skipped, and a failing
record logs one error while the batch completes. -/
theorem C7_witness :
    (create_proteins_from_metadata (fun _ => "h")
        [⟨none, none, none, none, none, [], false⟩] none DB.empty =
      create_proteins_from_metadata (fun _ => "h") [] none DB.empty) ∧
    (create_proteins_from_metadata (fun _ => "h")
        [⟨some "P1", none, none, none, some "AAA", [], true⟩] none DB.empty =
      ((create_proteins_from_metadata (fun _ => "h") [] none
          (sequence_stage (fun _ => "h") DB.empty
            ⟨some "P1", none, none, none, some "AAA", [], true⟩).2).1,
       "protein creation failed" ::
         (create_proteins_from_metadata (fun _ => "h") [] none
           (sequence_stage (fun _ => "h") DB.empty
             ⟨some "P1", none, none, none, some "AAA", [], true⟩).2).2.1,
       (create_proteins_from_metadata (fun _ => "h") [] none
         (sequence_stage (fun _ => "h") DB.empty
           ⟨some "P1", none, none, none, some "AAA", [], true⟩).2).2.2) ∧
      (sequence_stage (fun _ => "h") DB.empty
        ⟨some "P1", none, none, none, some "AAA", [], true⟩).2.proteins =
        DB.empty.proteins) :=
  ⟨(C7_per_record_error_handling (fun _ => "h") ⟨none, none, none, none, none, [], false⟩
      [] none DB.empty).1 (by decide),
   (C7_per_record_error_handling (fun _ => "h")
      ⟨some "P1", none, none, none, some "AAA", [], true⟩ [] none DB.empty).2
      (by decide) (by decide)⟩

/-- Claim C9: PeptideSequence.save recomputes the hash column as the
digest of a non-empty sequence on every save (whatever the prior value),
save never changes the sequence itself, and rows carrying the invariant
with pairwise distinct hashes (the unique constraint on peptideseq_hash)
have pairwise distinct sequences, since equal sequences would collide on
their recomputed hash.  The hashlib md5 hex digest is modelled as an
abstract deterministic function. -/
theorem C9_hash_invariant (md5 : String → String) :
    (∀ r : PeptideRow, r.aa_seq ≠ "" →
      (PeptideRow.save md5 r).peptideseq_hash = md5 r.aa_seq) ∧
    (∀ r : PeptideRow, (PeptideRow.save md5 r).aa_seq = r.aa_seq) ∧
    (∀ rows : List PeptideRow,
      (∀ r ∈ rows, r.aa_seq ≠ "" ∧ r.peptideseq_hash = md5 r.aa_seq) →
      rows.Pairwise (fun a b => a.peptideseq_hash ≠ b.peptideseq_hash) →
      rows.Pairwise (fun a b => a.aa_seq ≠ b.aa_seq)) := by
  refine ⟨?_, save_aa_seq md5, ?_⟩
  · intro r h
    simp [PeptideRow.save, h]
  · intro rows hinv hdist
    refine hdist.imp_of_mem ?_
    intro a b ha hb hne heq
    exact hne (by rw [(hinv a ha).2, (hinv b hb).2, heq])

/-- Witness for C9: saving a row with a stale hash restores the digest,
and two rows with distinct hashes under the invariant have distinct
sequences. -/
theorem C9_witness :
    (PeptideRow.save (fun s => s ++ "!") ⟨5, "AAA", "stale"⟩).peptideseq_hash =
      (fun s : String => s ++ "!") "AAA" ∧
    List.Pairwise (fun a b : PeptideRow => a.aa_seq ≠ b.aa_seq)
      [⟨0, "A", "A!"⟩, ⟨1, "B", "B!"⟩] :=
  ⟨(C9_hash_invariant (fun s => s ++ "!")).1 ⟨5, "AAA", "stale"⟩ (by decide),
   (C9_hash_invariant (fun s => s ++ "!")).2.2 [⟨0, "A", "A!"⟩, ⟨1, "B", "B!"⟩]
     (by decide) (by decide)⟩

theorem pyUnpack2_err {α : Type} (xs : List α) (h : xs.length ≠ 2) :
    pyUnpack2 xs = Except.error "ValueError: unpacking requires exactly two values" := by
  cases xs with
  | nil => rfl
  | cons a t =>
      cases t with
      | nil => rfl
      | cons b t2 =>
          cases t2 with
          | nil => exact absurd rfl h
          | cons c t3 => rfl

/-- Claim C10: task_add_proteins unpacks the single list returned by
create_proteins_from_metadata into two variables; whenever that list does
not have exactly two elements, the task raises the unpacking ValueError
and the cache entry for its task id is never set to Task completed (the
last write remains the adding-to-database progress string). -/
theorem C10_task_unpack_raises (md5 : String → String) (metas : List ProteinMeta)
    (org : Option String) (db : DB)
    (h : (create_proteins_from_metadata md5 metas org db).1.length ≠ 2) :
    (task_add_proteins md5 metas org db).1 =
      Except.error "ValueError: unpacking requires exactly two values" ∧
    "Task completed" ∉ (task_add_proteins md5 metas org db).2 := by
  have hu := pyUnpack2_err (create_proteins_from_metadata md5 metas org db).1 h
  constructor
  · simp [task_add_proteins, hu]
  · have hcache : (task_add_proteins md5 metas org db).2 = task_progress_updates := by
      simp [task_add_proteins, hu]
    rw [hcache]
    decide

/-- Witness for C10: an empty metadata list yields an empty created list,
whose length is not two, so the task raises at the unpacking step and the
completion entry is never written. -/
theorem C10_witness :
    (task_add_proteins (fun _ => "h") [] none DB.empty).1 =
      Except.error "ValueError: unpacking requires exactly two values" ∧
    "Task completed" ∉ (task_add_proteins (fun _ => "h") [] none DB.empty).2 :=
  C10_task_unpack_raises (fun _ => "h") [] none DB.empty (by decide)

end PeptideDB
